import Mathlib

set_option autoImplicit false

/-!
Shallow embedding of the authentication and account core of the repository:
token codec (src/core/security.py), blacklist over a key-TTL store
(src/utils/blacklist.py, src/db/redis.py), authentication dependencies
(src/dependencies/auth.py), services (src/services/auth.py,
src/services/account.py) and the account controller
(src/controllers/account.py).  Time is modelled as an integer number of
seconds; a JWT string is modelled as its claims together with a flag saying
whether its signature verifies against the server secret.
-/

namespace FastapiTdd

/-- Decoded JWT payload, src/schemas/auth.py TokenPayload. -/
structure TokenPayload where
  sub : String
  type : String
  exp : Int
  jti : String
deriving DecidableEq, Repr

/-- The claim set built by encode_token, src/core/security.py line 64. -/
structure JwtClaims where
  type : String
  iat : Int
  exp : Int
  sub : String
  jti : String
deriving DecidableEq, Repr

/-- A JWT string: its claims plus whether the signature verifies against the
server secret key. -/
structure JWT where
  claims : JwtClaims
  sigValid : Bool
deriving DecidableEq, Repr

/-- The configurable settings consumed by the auth core,
src/core/config.py (defaults: 15 minutes, 1 day, 1 hour, in seconds). -/
structure Settings where
  ACCESS_TOKEN_TTL : Int
  REFRESH_TOKEN_TTL : Int
  URL_SAFE_TOKEN_TTL : Int
deriving DecidableEq, Repr

/-- Default settings instance, src/core/config.py lines 44-46. -/
def settings : Settings := ⟨15 * 60, 60 * 24 * 60, 60 * 60⟩

namespace CustomErrorCode

/-- src/constants/errors.py CustomErrorCode values. -/
def VALIDATE_ERROR : String := "0000"

def RESET_PASSWORD_MISMATCH : String := "2001"

def ENTITY_NOT_FOUND : String := "1001"

def ENTITY_CONFLICT : String := "1002"

def NOT_AUTHENTICATED : String := "4001"

def INVALID_CREDENTIALS : String := "4002"

def TOKEN_EXPIRED : String := "4003"

def INVALID_TOKEN_TYPE : String := "4004"

def TOKEN_REVOKED : String := "4005"

def INACTIVE_ACCOUNT : String := "4006"

def OPERATION_NOT_PERMITTED : String := "4007"

def INCORRECT_EMAIL_OR_PASSWORD : String := "4008"

end CustomErrorCode

/-- src/utils/exceptions.py: each CustomError subclass fixes one HTTP status
code (401, 403, 409, 404, 400) and carries an error_code and a message. -/
inductive CustomError where
  | unauthenticated (error_code : String) (message : String)
  | unauthorized (error_code : String) (message : String)
  | conflict (error_code : String) (message : String)
  | notFound (error_code : String) (message : String)
  | badRequest (error_code : String) (message : String)
deriving DecidableEq, Repr

/-- The HTTP status code each exception subclass passes to CustomError. -/
def CustomError.status_code : CustomError → Nat
  | .unauthenticated _ _ => 401
  | .unauthorized _ _ => 403
  | .conflict _ _ => 409
  | .notFound _ _ => 404
  | .badRequest _ _ => 400

def CustomError.error_code : CustomError → String
  | .unauthenticated c _ => c
  | .unauthorized c _ => c
  | .conflict c _ => c
  | .notFound c _ => c
  | .badRequest c _ => c

def CustomError.message : CustomError → String
  | .unauthenticated _ m => m
  | .unauthorized _ m => m
  | .conflict _ m => m
  | .notFound _ m => m
  | .badRequest _ m => m

/-- src/models/account.py Account: the fields the auth core reads and
writes (id and the created_at/updated_at mixin timestamps are omitted;
nothing in the embedded code depends on them). -/
structure Account where
  email : String
  hashed_password : String
  name : Option String
  is_active : Bool
  is_verified : Bool
  verified_at : Option Int
deriving DecidableEq, Repr

/-- The account table, in insertion order. -/
abbrev AccountStore := List Account

/-- src/repositories/account.py get_by_email: first row whose email
matches (email is a unique column, so at most one matches in a real DB). -/
def get_by_email (store : AccountStore) (email : String) : Option Account :=
  store.find? (fun a => a.email == email)

/-- src/repositories/account.py is_active. -/
def is_active (account : Account) : Bool :=
  account.is_active

/-- src/core/security.py encode_token: builds the claims
type/iat/exp = now + lifetime/sub/jti and signs them with the server
secret (hence sigValid = true). -/
def encode_token (token_type : String) (lifetime : Int) (sub : String)
    (now : Int) (jti : String) : JWT :=
  ⟨⟨token_type, now, now + lifetime, sub, jti⟩, true⟩

/-- Errors raised by jwt.decode (PyJWT): ExpiredSignatureError when
exp <= now, InvalidTokenError otherwise (bad signature or malformed). -/
inductive JwtError where
  | expiredSignature
  | invalidToken
deriving DecidableEq, Repr

/-- src/core/security.py decode_token: jwt.decode verifies the signature
and the exp claim (PyJWT, zero leeway: expired iff exp <= now), then the
payload is loaded into TokenPayload. -/
def decode_token (now : Int) (token : JWT) : Except JwtError TokenPayload :=
  if token.sigValid = false then .error .invalidToken
  else if token.claims.exp ≤ now then .error .expiredSignature
  else .ok ⟨token.claims.sub, token.claims.type, token.claims.exp, token.claims.jti⟩

/-- A URL-safe timed token (itsdangerous URLSafeTimedSerializer): the data
dict is always of the shape email-only at the call site
(src/utils/mails.py line 80), plus the signing timestamp and whether the
signature verifies. -/
structure UrlSafeToken where
  email : String
  issued_at : Int
  sigValid : Bool
deriving DecidableEq, Repr

/-- Errors raised by serializer.loads (itsdangerous). -/
inductive ItsdangerousError where
  | signatureExpired
  | badSignature
deriving DecidableEq, Repr

/-- src/core/security.py encode_url_safe_token: serializer.dumps signs the
data with the current timestamp. -/
def encode_url_safe_token (email : String) (now : Int) : UrlSafeToken :=
  ⟨email, now, true⟩

/-- src/core/security.py decode_url_safe_token: serializer.loads checks the
signature, then raises SignatureExpired when the age now - issued_at
exceeds max_age. -/
def decode_url_safe_token (now : Int) (token : UrlSafeToken) (max_age : Int) :
    Except ItsdangerousError String :=
  if token.sigValid = false then .error .badSignature
  else if max_age < now - token.issued_at then .error .signatureExpired
  else .ok token.email

/-- src/db/redis.py: one Redis key with its value and the absolute time at
which its TTL runs out. -/
structure RedisEntry where
  key : String
  value : String
  expires_at : Int
deriving DecidableEq, Repr

/-- The contents of the Redis database holding the blacklist. -/
abbrev RedisState := List RedisEntry

/-- src/db/redis.py RedisClient.set: SET key value EX ttl; the key lives
until now + ttl and any previous entry for the key is replaced. -/
def RedisClient.set (st : RedisState) (now : Int) (key value : String)
    (ttl : Int) : RedisState :=
  ⟨key, value, now + ttl⟩ :: st.filter (fun e => e.key != key)

/-- src/db/redis.py RedisClient.get: the value if the key exists and its
TTL has not yet run out, otherwise none. -/
def RedisClient.get (st : RedisState) (now : Int) (key : String) : Option String :=
  match st.find? (fun e => e.key == key) with
  | none => none
  | some e => if now < e.expires_at then some e.value else none

/-- src/constants/token.py TokenStatus.REVOKED. -/
def TokenStatus.REVOKED : Int := 40

/-- src/utils/blacklist.py TokenBlackList.save: stores jti -> "40" with the
given TTL (Redis stores the int 40; decode_responses returns it as a
string). -/
def TokenBlackList.save (st : RedisState) (now : Int) (token : String)
    (ttl : Int) : RedisState :=
  RedisClient.set st now token (toString TokenStatus.REVOKED) ttl

/-- src/utils/blacklist.py TokenBlackList.get. -/
def TokenBlackList.get (st : RedisState) (now : Int) (token : String) :
    Option String :=
  RedisClient.get st now token

/-- src/dependencies/auth.py RefreshTokenBearer.is_token_revoked:
True iff blacklist.get returns a (truthy) value; the only value ever
stored is the nonempty string "40", so presence and truthiness agree. -/
def RefreshTokenBearer.is_token_revoked (st : RedisState) (now : Int)
    (jti : String) : Bool :=
  (TokenBlackList.get st now jti).isSome

/-- src/dependencies/auth.py RefreshTokenBearer.validate_token_data:
False for a non-refresh type (the caller then raises INVALID_TOKEN_TYPE),
raises TOKEN_REVOKED for a blacklisted jti, True otherwise. -/
def RefreshTokenBearer.validate_token_data (st : RedisState) (now : Int)
    (token_data : TokenPayload) : Except CustomError Bool :=
  if token_data.type ≠ "refresh" then .ok false
  else if RefreshTokenBearer.is_token_revoked st now token_data.jti then
    .error (.unauthenticated CustomErrorCode.TOKEN_REVOKED "Token revoked")
  else .ok true

/-- src/dependencies/auth.py AccessTokenBearer.validate_token_data. -/
def AccessTokenBearer.validate_token_data (token_data : TokenPayload) : Bool :=
  token_data.type == "access"

/-- An error escaping the request authenticator: either an exception from
jwt.decode or an application CustomError. -/
inductive AuthError where
  | jwtError (e : JwtError)
  | customError (e : CustomError)
deriving DecidableEq, Repr

/-- src/dependencies/auth.py TokenBearer.call specialised to
RefreshTokenBearer with auto_error=False: missing credentials give none,
otherwise the token is decoded and validate_token_data is consulted. -/
def RefreshTokenBearer.call (st : RedisState) (now : Int)
    (credentials : Option JWT) : Except AuthError (Option TokenPayload) :=
  match credentials with
  | none => .ok none
  | some token =>
    match decode_token now token with
    | .error e => .error (.jwtError e)
    | .ok token_data =>
      match RefreshTokenBearer.validate_token_data st now token_data with
      | .error e => .error (.customError e)
      | .ok false => .error (.customError
          (.unauthenticated CustomErrorCode.INVALID_TOKEN_TYPE "Invalid token type"))
      | .ok true => .ok (some token_data)

/-- src/dependencies/auth.py TokenBearer.call specialised to
AccessTokenBearer with auto_error=False. -/
def AccessTokenBearer.call (now : Int) (credentials : Option JWT) :
    Except AuthError (Option TokenPayload) :=
  match credentials with
  | none => .ok none
  | some token =>
    match decode_token now token with
    | .error e => .error (.jwtError e)
    | .ok token_data =>
      if AccessTokenBearer.validate_token_data token_data then .ok (some token_data)
      else .error (.customError
        (.unauthenticated CustomErrorCode.INVALID_TOKEN_TYPE "Invalid token type"))

/-- src/dependencies/auth.py get_account_from_access_token. -/
def get_account_from_access_token (store : AccountStore)
    (token_data : Option TokenPayload) : Except CustomError (Option Account) :=
  match token_data with
  | none => .ok none
  | some td =>
    match get_by_email store td.sub with
    | none => .error (.notFound CustomErrorCode.ENTITY_NOT_FOUND "Account not found")
    | some account => .ok (some account)

/-- src/dependencies/auth.py get_account_from_refresh_token: blacklists the
jti with TTL settings.REFRESH_TOKEN_TTL, then looks the subject up; the
pair carries the resulting blacklist state alongside the outcome. -/
def get_account_from_refresh_token (s : Settings) (store : AccountStore)
    (st : RedisState) (now : Int) (token_data : Option TokenPayload) :
    Except CustomError Account × RedisState :=
  match token_data with
  | none =>
    (.error (.unauthenticated CustomErrorCode.NOT_AUTHENTICATED "Not authenticated"), st)
  | some td =>
    let st1 := TokenBlackList.save st now td.jti s.REFRESH_TOKEN_TTL
    match get_by_email store td.sub with
    | none => (.error (.notFound CustomErrorCode.ENTITY_NOT_FOUND "Account not found"), st1)
    | some account => (.ok account, st1)

/-- The full refresh-token dependency chain of one request,
RefreshTokenBearer followed by get_account_from_refresh_token
(src/dependencies/auth.py lines 110-200). -/
def refresh_dependency (s : Settings) (store : AccountStore) (st : RedisState)
    (now : Int) (credentials : Option JWT) :
    Except AuthError Account × RedisState :=
  match RefreshTokenBearer.call st now credentials with
  | .error e => (.error e, st)
  | .ok token_data =>
    match get_account_from_refresh_token s store st now token_data with
    | (.error e, st1) => (.error (.customError e), st1)
    | (.ok account, st1) => (.ok account, st1)

/-- src/dependencies/auth.py RoleChecker.call on an already-resolved user:
requires authentication unless GUEST access is allowed, and refuses any
resolved user whose account is inactive. -/
def RoleChecker.call (allowed_roles : List String)
    (current_user : Option Account) : Except CustomError (Option Account) :=
  if !(allowed_roles.contains "GUEST") && current_user.isNone then
    .error (.unauthenticated CustomErrorCode.NOT_AUTHENTICATED "Not authenticated")
  else
    match current_user with
    | some u =>
      if !(is_active u) then
        .error (.unauthorized CustomErrorCode.OPERATION_NOT_PERMITTED "Operation not permitted")
      else .ok (some u)
    | none => .ok none

/-- One guarded request: AccessTokenBearer(auto_error=False), then
get_account_from_access_token, then RoleChecker, as chained by the FastAPI
dependency wiring in src/dependencies/auth.py. -/
def RoleChecker.request (allowed_roles : List String) (store : AccountStore)
    (now : Int) (credentials : Option JWT) : Except AuthError (Option Account) :=
  match AccessTokenBearer.call now credentials with
  | .error e => .error e
  | .ok token_data =>
    match get_account_from_access_token store token_data with
    | .error e => .error (.customError e)
    | .ok current_user =>
      match RoleChecker.call allowed_roles current_user with
      | .error e => .error (.customError e)
      | .ok r => .ok r

/-- src/services/auth.py AuthService.authenticate; password verification
(passlib pbkdf2_sha256 verify) is an opaque boolean predicate passed in. -/
def AuthService.authenticate (verify : String → String → Bool)
    (store : AccountStore) (email password : String) : Option Account :=
  match get_by_email store email with
  | none => none
  | some account =>
    if !(is_active account) then none
    else if !(verify password account.hashed_password) then none
    else some account

/-- src/services/auth.py AuthService.create_access_token. -/
def AuthService.create_access_token (s : Settings) (sub : String) (now : Int)
    (jti : String) : JWT :=
  encode_token "access" s.ACCESS_TOKEN_TTL sub now jti

/-- src/services/auth.py AuthService.create_refresh_token. -/
def AuthService.create_refresh_token (s : Settings) (sub : String) (now : Int)
    (jti : String) : JWT :=
  encode_token "refresh" s.REFRESH_TOKEN_TTL sub now jti

/-- Pydantic validation failure (error_code "0000"). -/
inductive ValidationError where
  | validateError
deriving DecidableEq, Repr

/-- src/schemas/account.py AccountCreate after validation: the
hashed_password field holds the hash of the supplied plaintext. -/
structure AccountCreate where
  email : String
  hashed_password : String
  name : Option String
deriving DecidableEq, Repr

/-- Constructing an AccountCreate from a request body: Field constraints
(password min_length 6, name max_length 30) are checked, then the
set_hashed_password validator replaces the password with its hash
(src/schemas/account.py lines 30-46); pwd_hash is the opaque
passlib pbkdf2_sha256 hash. -/
def AccountCreate.validate (pwd_hash : String → String) (email password : String)
    (name : Option String) : Except ValidationError AccountCreate :=
  if password.length < 6 then .error .validateError
  else if (match name with | some n => decide (30 < n.length) | none => false) then
    .error .validateError
  else .ok ⟨email, pwd_hash password, name⟩

/-- src/schemas/account.py AccountUpdate after validation: every field
optional, a supplied password stored hashed. -/
structure AccountUpdate where
  email : Option String
  hashed_password : Option String
  name : Option String
  is_active : Option Bool
deriving DecidableEq, Repr

/-- AccountUpdate(password=value) as built by AccountService.reset_password:
only the password field is set, and the set_hashed_password validator
hashes it (src/schemas/account.py lines 96-115). -/
def AccountUpdate.from_password (pwd_hash : String → String) (password : String) :
    Except ValidationError AccountUpdate :=
  if password.length < 6 then .error .validateError
  else .ok ⟨none, some (pwd_hash password), none, none⟩

/-- src/schemas/account.py ResetPassword (both fields min_length 6). -/
structure ResetPassword where
  current_password : String
  new_password : String
deriving DecidableEq, Repr

/-- src/repositories/base.py CRUDBase.update with an AccountUpdate schema:
model_dump(exclude_unset=True) keeps only the fields that were set, and
db_obj.update applies them over the row. -/
def CRUDBase.update (db_obj : Account) (obj_in : AccountUpdate) : Account :=
  ⟨obj_in.email.getD db_obj.email,
   obj_in.hashed_password.getD db_obj.hashed_password,
   (match obj_in.name with | some n => some n | none => db_obj.name),
   obj_in.is_active.getD db_obj.is_active,
   db_obj.is_verified,
   db_obj.verified_at⟩

/-- src/repositories/base.py CRUDBase.create for Account: the row is built
from the schema dump with the model column defaults is_active = true,
is_verified = false, and appended to the table. -/
def AccountRepository.create (store : AccountStore) (obj_in : AccountCreate) :
    AccountStore × Account :=
  let account : Account := ⟨obj_in.email, obj_in.hashed_password, obj_in.name, true, false, none⟩
  (store ++ [account], account)

/-- src/services/account.py AccountService.reset_password: builds
AccountUpdate(password=new_password) and persists it. -/
def AccountService.reset_password (pwd_hash : String → String)
    (account_obj : Account) (pwd_in : ResetPassword) :
    Except ValidationError Account :=
  match AccountUpdate.from_password pwd_hash pwd_in.new_password with
  | .error e => .error e
  | .ok upd => .ok (CRUDBase.update account_obj upd)

/-- src/controllers/account.py create_account: queries by email first and
raises ConflictError(ENTITY_CONFLICT, "Email already registered") when a
row exists, otherwise creates the account; the pair carries the resulting
account table (unchanged on the error path). -/
def create_account (store : AccountStore) (account_in : AccountCreate) :
    Except CustomError Account × AccountStore :=
  match get_by_email store account_in.email with
  | some _ =>
    (.error (.conflict CustomErrorCode.ENTITY_CONFLICT "Email already registered"), store)
  | none =>
    let created := AccountRepository.create store account_in
    (.ok created.2, created.1)

/-- A Python runtime error. services/account.py line 68 evaluates
datetime.now(datetime.UTC) where datetime is the class brought in by
line 8; the datetime class has no UTC attribute (UTC is a module-level
name, brought in correctly in src/core/security.py line 13), so the
expression raises AttributeError before the update runs. -/
inductive PyError where
  | attributeError
deriving DecidableEq, Repr

/-- The value of the expression datetime.now(datetime.UTC) in
src/services/account.py line 68. -/
def datetime_now_datetime_UTC : Except PyError Int :=
  .error .attributeError

/-- An error escaping AccountService.verify_account. -/
inductive VerifyError where
  | itsdangerous (e : ItsdangerousError)
  | custom (e : CustomError)
  | py (e : PyError)
deriving DecidableEq, Repr

/-- Replace the row with the given email by the updated row. -/
def AccountStore.replace (store : AccountStore) (email : String)
    (upd : Account) : AccountStore :=
  store.map (fun a => if a.email == email then upd else a)

/-- src/services/account.py AccountService.verify_account: decodes the
URL-safe token, looks the embedded email up, then updates the row with
is_verified = true and verified_at = datetime.now(datetime.UTC); the last
expression raises AttributeError (see datetime_now_datetime_UTC), so the
update never runs. -/
def AccountService.verify_account (s : Settings) (store : AccountStore)
    (now : Int) (token : UrlSafeToken) : Except VerifyError AccountStore :=
  match decode_url_safe_token now token s.URL_SAFE_TOKEN_TTL with
  | .error e => .error (.itsdangerous e)
  | .ok email =>
    match get_by_email store email with
    | none => .error (.custom (.notFound CustomErrorCode.ENTITY_NOT_FOUND "Account not found"))
    | some account =>
      match datetime_now_datetime_UTC with
      | .error e => .error (.py e)
      | .ok t =>
        .ok (AccountStore.replace store email
          ⟨account.email, account.hashed_password, account.name,
           account.is_active, true, some t⟩)

/-! Helper lemmas shared by the claim theorems. -/

/-- Whatever the account lookup returns, get_account_from_refresh_token
leaves the blacklist with the jti saved at TTL settings.REFRESH_TOKEN_TTL. -/
theorem get_account_from_refresh_token_state (s : Settings) (store : AccountStore)
    (st : RedisState) (now : Int) (td : TokenPayload) :
    (get_account_from_refresh_token s store st now (some td)).2 =
      TokenBlackList.save st now td.jti s.REFRESH_TOKEN_TTL := by
  unfold get_account_from_refresh_token
  cases h : get_by_email store td.sub <;> simp [h]

/-- A jti saved at time t1 with TTL ttl is reported revoked at any time
t2 < t1 + ttl. -/
theorem is_token_revoked_after_save (st : RedisState) (t1 t2 ttl : Int)
    (jti : String) (h : t2 < t1 + ttl) :
    RefreshTokenBearer.is_token_revoked (TokenBlackList.save st t1 jti ttl) t2 jti = true := by
  simp [RefreshTokenBearer.is_token_revoked, TokenBlackList.get, TokenBlackList.save,
    RedisClient.set, RedisClient.get, List.find?, h]

/-- C5: decoding the result of encode_token, at any time before the expiry
now + lifetime (so in particular for every positive lifetime at encoding
time), succeeds and the payload carries the given subject and type. -/
theorem token_codec_roundtrip (token_type sub jti : String) (lifetime t1 t2 : Int)
    (hexp : t2 < t1 + lifetime) :
    decode_token t2 (encode_token token_type lifetime sub t1 jti) =
      .ok ⟨sub, token_type, t1 + lifetime, jti⟩ := by
  have h : ¬ (t1 + lifetime ≤ t2) := by omega
  simp [decode_token, encode_token, h]

/-- C5 witness. -/
theorem token_codec_roundtrip_witness :
    decode_token 0 (encode_token "access" 10 "a@x.com" 0 "j1") =
      .ok ⟨"a@x.com", "access", 0 + 10, "j1"⟩ :=
  token_codec_roundtrip "access" "a@x.com" "j1" 10 0 0 (by decide)

/-- C6: a token encoded with a negative lifetime fails decoding at any
later time with ExpiredSignatureError; moreover the boundary is exact: any
correctly signed token whose exp lies strictly in the past fails decoding
the same way. -/
theorem negative_lifetime_decode_expired (token_type sub jti : String)
    (lifetime t1 t2 : Int) (hneg : lifetime < 0) (hord : t1 ≤ t2) :
    decode_token t2 (encode_token token_type lifetime sub t1 jti) =
      .error .expiredSignature ∧
    ∀ token : JWT, token.sigValid = true → token.claims.exp < t2 →
      decode_token t2 token = .error .expiredSignature := by
  constructor
  · have h : t1 + lifetime ≤ t2 := by omega
    simp [decode_token, encode_token, h]
  · intro token hsig hexp
    have h : token.claims.exp ≤ t2 := by omega
    simp [decode_token, hsig, h]

/-- C6 witness. -/
theorem negative_lifetime_decode_expired_witness :
    decode_token 5 (encode_token "refresh" (-3) "a@x.com" 0 "j1") =
      .error .expiredSignature ∧
    decode_token 5 (⟨⟨"refresh", 0, 4, "a@x.com", "j1"⟩, true⟩ : JWT) =
      .error .expiredSignature := by
  have h := negative_lifetime_decode_expired "refresh" "a@x.com" "j1" (-3) 0 5
    (by decide) (by decide)
  exact ⟨h.1, h.2 ⟨⟨"refresh", 0, 4, "a@x.com", "j1"⟩, true⟩ rfl (by decide)⟩

/-- C7: when the email of the registration request already has a row,
create_account fails with ConflictError (HTTP 409) carrying error_code
ENTITY_CONFLICT = "1002" and message "Email already registered", and the
account table is left unchanged. -/
theorem duplicate_email_conflict (store : AccountStore) (account_in : AccountCreate)
    (account : Account) (h : get_by_email store account_in.email = some account) :
    create_account store account_in =
      (.error (.conflict CustomErrorCode.ENTITY_CONFLICT "Email already registered"), store) ∧
    CustomError.status_code
      (.conflict CustomErrorCode.ENTITY_CONFLICT "Email already registered") = 409 ∧
    CustomErrorCode.ENTITY_CONFLICT = "1002" := by
  refine ⟨?_, rfl, rfl⟩
  unfold create_account
  rw [h]

/-- C7 witness. -/
theorem duplicate_email_conflict_witness :
    create_account [⟨"a@x.com", "h1", none, true, false, none⟩] ⟨"a@x.com", "h2", none⟩ =
      (.error (.conflict CustomErrorCode.ENTITY_CONFLICT "Email already registered"),
        [⟨"a@x.com", "h1", none, true, false, none⟩]) :=
  (duplicate_email_conflict [⟨"a@x.com", "h1", none, true, false, none⟩]
    ⟨"a@x.com", "h2", none⟩ ⟨"a@x.com", "h1", none, true, false, none⟩ (by decide)).1

/-- C4: AuthService.authenticate returns none exactly when the account is
absent, inactive, or the password fails verification against the stored
hash; whenever the account exists, is active, and the password verifies,
the account itself is returned. All three failure causes collapse to the
same none outcome. -/
theorem authenticate_none_iff (verify : String → String → Bool)
    (store : AccountStore) (email password : String) :
    (AuthService.authenticate verify store email password = none ↔
      get_by_email store email = none ∨
        ∃ account, get_by_email store email = some account ∧
          (account.is_active = false ∨ verify password account.hashed_password = false)) ∧
    (∀ account, get_by_email store email = some account →
        account.is_active = true → verify password account.hashed_password = true →
        AuthService.authenticate verify store email password = some account) := by
  constructor
  · cases h : get_by_email store email with
    | none => simp [AuthService.authenticate, h]
    | some a =>
      cases ha : a.is_active <;>
        cases hv : verify password a.hashed_password <;>
          simp [AuthService.authenticate, is_active, h, ha, hv]
  · intro account h ha hv
    simp [AuthService.authenticate, is_active, h, ha, hv]

/-- C4 witness. -/
theorem authenticate_none_iff_witness :
    AuthService.authenticate (fun p h => p == h) [] "a@x.com" "pw" = none :=
  (authenticate_none_iff (fun p h => p == h) [] "a@x.com" "pw").1.mpr
    (Or.inl (by decide))

/-- C8: every operation that stores or updates a password persists the
one-way hash of the supplied plaintext: registration (AccountCreate
validation followed by the repository create), an AccountUpdate built from
a password, and AccountService.reset_password. -/
theorem password_always_hashed (pwd_hash : String → String) :
    (∀ store email password name out,
        AccountCreate.validate pwd_hash email password name = .ok out →
        (AccountRepository.create store out).2.hashed_password = pwd_hash password) ∧
    (∀ password out,
        AccountUpdate.from_password pwd_hash password = .ok out →
        out.hashed_password = some (pwd_hash password)) ∧
    (∀ account_obj pwd_in out,
        AccountService.reset_password pwd_hash account_obj pwd_in = .ok out →
        out.hashed_password = pwd_hash pwd_in.new_password) := by
  refine ⟨?_, ?_, ?_⟩
  · intro store email password name out hout
    unfold AccountCreate.validate at hout
    split at hout
    · exact absurd hout (by simp)
    · split at hout
      · exact absurd hout (by simp)
      · cases hout
        rfl
  · intro password out hout
    unfold AccountUpdate.from_password at hout
    split at hout
    · exact absurd hout (by simp)
    · cases hout
      rfl
  · intro account_obj pwd_in out hout
    unfold AccountService.reset_password AccountUpdate.from_password at hout
    by_cases hlen : pwd_in.new_password.length < 6
    · rw [if_pos hlen] at hout
      exact absurd hout (by simp)
    · rw [if_neg hlen] at hout
      cases hout
      rfl

/-- C8 witness. -/
theorem password_always_hashed_witness :
    (Account.mk "a@x.com" ("H" ++ "newpass1") none true false none).hashed_password =
      "H" ++ "newpass1" :=
  (password_always_hashed (fun p => "H" ++ p)).2.2
    ⟨"a@x.com", "old", none, true, false, none⟩ ⟨"oldpass1", "newpass1"⟩
    ⟨"a@x.com", "H" ++ "newpass1", none, true, false, none⟩ rfl

/-- C9: a request whose credential decodes as a correctly signed,
unexpired, non-revoked refresh token whose subject has no account fails
with NotFound ENTITY_NOT_FOUND, and the jti is nonetheless left revoked in
the resulting blacklist state: the token is consumed even on this error
path. -/
theorem refresh_notfound_still_revokes (s : Settings) (store : AccountStore)
    (st : RedisState) (now : Int) (token : JWT)
    (hsig : token.sigValid = true) (hexp : now < token.claims.exp)
    (htype : token.claims.type = "refresh")
    (hnotrev : RefreshTokenBearer.is_token_revoked st now token.claims.jti = false)
    (habsent : get_by_email store token.claims.sub = none)
    (httl : 0 < s.REFRESH_TOKEN_TTL) :
    (refresh_dependency s store st now (some token)).1 =
      .error (.customError (.notFound CustomErrorCode.ENTITY_NOT_FOUND "Account not found")) ∧
    RefreshTokenBearer.is_token_revoked
      (refresh_dependency s store st now (some token)).2 now token.claims.jti = true := by
  have hdec : decode_token now token =
      .ok ⟨token.claims.sub, token.claims.type, token.claims.exp, token.claims.jti⟩ := by
    have h : ¬ (token.claims.exp ≤ now) := by omega
    simp [decode_token, hsig, h]
  have hval : RefreshTokenBearer.validate_token_data st now
      ⟨token.claims.sub, token.claims.type, token.claims.exp, token.claims.jti⟩ = .ok true := by
    simp [RefreshTokenBearer.validate_token_data, htype, hnotrev]
  have hcall : RefreshTokenBearer.call st now (some token) =
      .ok (some ⟨token.claims.sub, token.claims.type, token.claims.exp, token.claims.jti⟩) := by
    simp only [RefreshTokenBearer.call, hdec, hval]
  have hdep : refresh_dependency s store st now (some token) =
      (.error (.customError (.notFound CustomErrorCode.ENTITY_NOT_FOUND "Account not found")),
        TokenBlackList.save st now token.claims.jti s.REFRESH_TOKEN_TTL) := by
    simp only [refresh_dependency, hcall]
    unfold get_account_from_refresh_token
    simp [habsent]
  rw [hdep]
  exact ⟨rfl, is_token_revoked_after_save st now now s.REFRESH_TOKEN_TTL
    token.claims.jti (by omega)⟩

/-- C9 witness. -/
theorem refresh_notfound_still_revokes_witness :
    (refresh_dependency settings [] [] 10
        (some ⟨⟨"refresh", 0, 1000, "a@x.com", "j1"⟩, true⟩)).1 =
      .error (.customError (.notFound CustomErrorCode.ENTITY_NOT_FOUND "Account not found")) ∧
    RefreshTokenBearer.is_token_revoked
      (refresh_dependency settings [] [] 10
        (some ⟨⟨"refresh", 0, 1000, "a@x.com", "j1"⟩, true⟩)).2 10 "j1" = true :=
  refresh_notfound_still_revokes settings [] [] 10
    ⟨⟨"refresh", 0, 1000, "a@x.com", "j1"⟩, true⟩
    rfl (by decide) rfl (by decide) (by decide) (by decide)

/-- C10: on a route whose RoleChecker allows GUEST, a request with no
credential passes and resolves to no account, while a request whose valid
access token resolves to an inactive account is rejected with
UnauthorizedError OPERATION_NOT_PERMITTED = "4007". -/
theorem guest_route_inactive_account_rejected (roles : List String)
    (store : AccountStore) (now : Int) (token : JWT) (account : Account)
    (hguest : roles.contains "GUEST" = true)
    (hsig : token.sigValid = true) (hexp : now < token.claims.exp)
    (htype : token.claims.type = "access")
    (hacct : get_by_email store token.claims.sub = some account)
    (hinactive : account.is_active = false) :
    RoleChecker.request roles store now none = .ok none ∧
    RoleChecker.request roles store now (some token) =
      .error (.customError
        (.unauthorized CustomErrorCode.OPERATION_NOT_PERMITTED "Operation not permitted")) ∧
    CustomErrorCode.OPERATION_NOT_PERMITTED = "4007" := by
  have hmem : "GUEST" ∈ roles := by simpa using hguest
  refine ⟨?_, ?_, rfl⟩
  · simp [RoleChecker.request, AccessTokenBearer.call, get_account_from_access_token,
      RoleChecker.call, hmem]
  · have hdec : decode_token now token =
        .ok ⟨token.claims.sub, token.claims.type, token.claims.exp, token.claims.jti⟩ := by
      have h : ¬ (token.claims.exp ≤ now) := by omega
      simp [decode_token, hsig, h]
    have hcall : AccessTokenBearer.call now (some token) =
        .ok (some ⟨token.claims.sub, token.claims.type, token.claims.exp, token.claims.jti⟩) := by
      simp only [AccessTokenBearer.call, hdec, AccessTokenBearer.validate_token_data, htype]
      simp
    simp only [RoleChecker.request, hcall]
    simp [get_account_from_access_token, hacct, RoleChecker.call, hmem,
      is_active, hinactive]

/-- C10 witness. -/
theorem guest_route_inactive_account_rejected_witness :
    RoleChecker.request ["GUEST"] [⟨"a@x.com", "h1", none, false, false, none⟩] 10 none =
      .ok none ∧
    RoleChecker.request ["GUEST"] [⟨"a@x.com", "h1", none, false, false, none⟩] 10
        (some ⟨⟨"access", 0, 1000, "a@x.com", "j1"⟩, true⟩) =
      .error (.customError
        (.unauthorized CustomErrorCode.OPERATION_NOT_PERMITTED "Operation not permitted")) := by
  have h := guest_route_inactive_account_rejected ["GUEST"]
    [⟨"a@x.com", "h1", none, false, false, none⟩] 10
    ⟨⟨"access", 0, 1000, "a@x.com", "j1"⟩, true⟩
    ⟨"a@x.com", "h1", none, false, false, none⟩
    (by decide) rfl (by decide) rfl (by decide) rfl
  exact ⟨h.1, h.2.1⟩

/-- C1: refresh tokens are single-use. Once a refresh token issued at t0
has been decoded at t1 and consumed by a successful run of
get_account_from_refresh_token, any later request at t2 presenting a
correctly signed, unexpired refresh token carrying the same jti — in
particular the original token itself, whose expiry t0 + REFRESH_TOKEN_TTL
has not yet been reached — fails with TOKEN_REVOKED = "4005". -/
theorem refresh_token_single_use (s : Settings) (store store2 : AccountStore)
    (st : RedisState) (sub jti : String) (t0 t1 t2 : Int) (account : Account)
    (td : TokenPayload) (token2 : JWT)
    (h01 : t0 ≤ t1) (h12 : t1 ≤ t2)
    (hnotexp : t2 < t0 + s.REFRESH_TOKEN_TTL)
    (hdec1 : decode_token t1 (AuthService.create_refresh_token s sub t0 jti) = .ok td)
    (hfirst : (get_account_from_refresh_token s store st t1 (some td)).1 = .ok account)
    (htype2 : token2.claims.type = "refresh") (hjti2 : token2.claims.jti = jti)
    (hsig2 : token2.sigValid = true) (hexp2 : t2 < token2.claims.exp) :
    (refresh_dependency s store2
        (get_account_from_refresh_token s store st t1 (some td)).2 t2 (some token2)).1 =
      .error (.customError
        (.unauthenticated CustomErrorCode.TOKEN_REVOKED "Token revoked")) ∧
    CustomErrorCode.TOKEN_REVOKED = "4005" := by
  refine ⟨?_, rfl⟩
  have hjti : td.jti = jti := by
    have hnle : ¬ (t0 + s.REFRESH_TOKEN_TTL ≤ t1) := by omega
    simp [decode_token, AuthService.create_refresh_token, encode_token, hnle] at hdec1
    rw [← hdec1]
  rw [get_account_from_refresh_token_state]
  have hdec2 : decode_token t2 token2 =
      .ok ⟨token2.claims.sub, token2.claims.type, token2.claims.exp, token2.claims.jti⟩ := by
    have h : ¬ (token2.claims.exp ≤ t2) := by omega
    simp [decode_token, hsig2, h]
  have hrev : RefreshTokenBearer.is_token_revoked
      (TokenBlackList.save st t1 td.jti s.REFRESH_TOKEN_TTL) t2 token2.claims.jti = true := by
    rw [hjti2, ← hjti]
    exact is_token_revoked_after_save st t1 t2 s.REFRESH_TOKEN_TTL td.jti (by omega)
  have hval : RefreshTokenBearer.validate_token_data
      (TokenBlackList.save st t1 td.jti s.REFRESH_TOKEN_TTL) t2
      ⟨token2.claims.sub, token2.claims.type, token2.claims.exp, token2.claims.jti⟩ =
      .error (.unauthenticated CustomErrorCode.TOKEN_REVOKED "Token revoked") := by
    simp [RefreshTokenBearer.validate_token_data, htype2, hrev]
  simp only [refresh_dependency, RefreshTokenBearer.call, hdec2, hval]

/-- C1 witness. -/
theorem refresh_token_single_use_witness :
    (refresh_dependency settings [⟨"a@x.com", "h1", none, true, false, none⟩]
        (get_account_from_refresh_token settings
          [⟨"a@x.com", "h1", none, true, false, none⟩] [] 10
          (some ⟨"a@x.com", "refresh", 0 + settings.REFRESH_TOKEN_TTL, "j1"⟩)).2 20
        (some (AuthService.create_refresh_token settings "a@x.com" 0 "j1"))).1 =
      .error (.customError
        (.unauthenticated CustomErrorCode.TOKEN_REVOKED "Token revoked")) :=
  (refresh_token_single_use settings [⟨"a@x.com", "h1", none, true, false, none⟩]
    [⟨"a@x.com", "h1", none, true, false, none⟩] [] "a@x.com" "j1" 0 10 20
    ⟨"a@x.com", "h1", none, true, false, none⟩
    ⟨"a@x.com", "refresh", 0 + settings.REFRESH_TOKEN_TTL, "j1"⟩
    (AuthService.create_refresh_token settings "a@x.com" 0 "j1")
    (by decide) (by decide) (by decide) rfl rfl rfl rfl rfl (by decide)).1

/-- C2 counterexample: rotating a refresh token that was issued at time 0
with expiry 86400 but is consumed at time 100 records the blacklist entry
with TTL settings.REFRESH_TOKEN_TTL = 86400, so the entry runs out at
86500; a TTL equal to the remaining validity window 86400 - 100 would make
it run out at 86400. The claim that the recorded TTL equals the remaining
window is therefore false at this input. -/
theorem revocation_ttl_remaining_window_counterexample :
    (get_account_from_refresh_token settings
        [⟨"a@x.com", "h1", none, true, false, none⟩] [] 100
        (some ⟨"a@x.com", "refresh", 86400, "j1"⟩)).2 =
      [⟨"j1", "40", 86500⟩] ∧
    ¬ ((86500 : Int) = 100 + (86400 - 100)) := by
  refine ⟨?_, by decide⟩
  rfl

/-- C2 amended: the revocation entry for the consumed jti is recorded with
the fixed configured TTL settings.REFRESH_TOKEN_TTL — not with the
remaining validity window of the token — so it runs out at
consumption time + REFRESH_TOKEN_TTL. -/
theorem revocation_ttl_fixed_constant (s : Settings) (store : AccountStore)
    (st : RedisState) (now : Int) (td : TokenPayload) :
    (get_account_from_refresh_token s store st now (some td)).2 =
      ⟨td.jti, toString TokenStatus.REVOKED, now + s.REFRESH_TOKEN_TTL⟩ ::
        st.filter (fun e => e.key != td.jti) := by
  rw [get_account_from_refresh_token_state]
  rfl

/-- C3: the account-verification success path never completes. With a
well-signed token within max age whose email has an account — the very
input on which the claim asserts HTTP 200 and a verified account —
AccountService.verify_account evaluates datetime.now(datetime.UTC), which
raises AttributeError, so the handler returns no 200 and the account is
never marked verified. -/
theorem verify_account_raises_attribute_error :
    AccountService.verify_account settings
      [⟨"a@x.com", "h1", none, true, false, none⟩] 100 ⟨"a@x.com", 50, true⟩ =
      .error (.py .attributeError) ∧
    decode_url_safe_token 100 ⟨"a@x.com", 50, true⟩ settings.URL_SAFE_TOKEN_TTL =
      .ok "a@x.com" ∧
    get_by_email [⟨"a@x.com", "h1", none, true, false, none⟩] "a@x.com" =
      some ⟨"a@x.com", "h1", none, true, false, none⟩ := by
  refine ⟨rfl, ?_, by decide⟩
  rfl

end FastapiTdd
